import Mathlib

/-!
Verification of the Dradis-MCP bridge (Python sources under `src/dradis_mcp/`)
against its natural-language specification.

The embedding models:
* Python scalar values (`PyVal`): `None`, `str`, `int` — enough to distinguish
  "null", "text" and "non-null non-text" values, which is what the merge logic
  inspects via `isinstance(value, str)` / `is not None`;
* Python dicts as insertion-ordered association lists over `String` keys, with
  `dictGet?` (first-match lookup) and `dictSet` (replace-in-place or append),
  matching CPython dict semantics on duplicate-free key lists;
* the field-block codec `_construct_dradis_response` (api.py:98-103);
* the read-modify-write merges of `update_vulnerability` (api.py:200-226) and
  `update_content_block` (api.py:249-279);
* the document-property existence scan of `upsert_document_property`
  (api.py:286-318);
* the FastMCP tool layer (server.py): the session's `project_id` slot, the
  falsy `if not project_id` precondition guard, and — for each tool — the exact
  list of HTTP requests it issues, with upstream responses supplied by an
  `Upstream` oracle so that network behaviour is explicit.
-/

namespace DradisMCP

/-- Python scalar values as they appear in field mappings: `None`, `str`, or a
non-string scalar (represented by `int`, the only other type the tools pass). -/
inductive PyVal where
  | vNone
  | vStr (s : String)
  | vInt (n : Int)
deriving DecidableEq, Repr

/-- Python `str(v)` for the values above (used by f-string interpolation and by
the `str(v)` coercions in server.py). -/
def pyStr : PyVal → String
  | PyVal.vNone => "None"
  | PyVal.vStr s => s
  | PyVal.vInt n => toString n

/-- Python dict lookup `d.get(k)` / `k in d`: first entry whose key equals `k`. -/
def dictGet? {α : Type} (d : List (String × α)) (k : String) : Option α :=
  match d with
  | [] => none
  | kv :: rest => if kv.1 = k then some kv.2 else dictGet? rest k

/-- Python dict assignment `d[k] = v`: replace the value in place if the key is
present (keeping its position), otherwise append the new entry at the end. -/
def dictSet {α : Type} (d : List (String × α)) (k : String) (v : α) : List (String × α) :=
  match d with
  | [] => [(k, v)]
  | kv :: rest => if kv.1 = k then (kv.1, v) :: rest else kv :: dictSet rest k v

/-- One encoded field of `_construct_dradis_response` (api.py:102):
`f"#[{key}]#\r\n{value}\r\n\r\n"`. -/
def entry_block (k : String) (v : PyVal) : String :=
  "#[" ++ k ++ "]#\r\n" ++ pyStr v ++ "\r\n\r\n"

/-- `_construct_dradis_response` (api.py:98-103): fold the entries of the field
mapping, in order, onto an accumulator string. -/
def construct_dradis_response (data : List (String × PyVal)) : String :=
  data.foldl (fun acc kv => acc ++ entry_block kv.1 kv.2) ""

/-- Modelled from the spec's words (for comparison with
`construct_dradis_response`): "the concatenation, in mapping order, of
`#[name]#`, one CRLF, the textual form of the value, then two CRLF sequences,
for each entry". -/
def encode_spec : List (String × PyVal) → String
  | [] => ""
  | kv :: rest => entry_block kv.1 kv.2 ++ encode_spec rest

/-- Number of occurrences of the two-character marker-opening sequence `#[`
in a character list (the start of each `#[...]#` marker). -/
def countHB : List Char → Nat
  | [] => 0
  | [_] => 0
  | c1 :: c2 :: rest =>
      (if c1 = '#' ∧ c2 = '[' then 1 else 0) + countHB (c2 :: rest)

/-- Contribution of the boundary between two concatenated character lists to
`countHB`: 1 when the left part ends in `#` and the right part starts with `[`. -/
def hbStraddle (a b : List Char) : Nat :=
  if a.getLast? = some '#' ∧ b.head? = some '[' then 1 else 0

/-- Python `str.strip()` (for ASCII whitespace): drop leading and trailing
whitespace characters. -/
def pyStrip (s : String) : String :=
  ⟨((s.data.dropWhile Char.isWhitespace).reverse.dropWhile Char.isWhitespace).reverse⟩

/-- Truthiness of the expression guarding the merge in `update_vulnerability`
(api.py:213): `isinstance(value, str) and value.strip() or value is not None`,
which Python parses as `(isinstance(value, str) and value.strip()) or
(value is not None)`. -/
def merge_cond (v : PyVal) : Bool :=
  (match v with
   | PyVal.vStr s => decide (pyStrip s ≠ "")
   | _ => false) || decide (v ≠ PyVal.vNone)

/-- The merge loop of `update_vulnerability` (api.py:211-214): start from a
copy of the fetched record, then for each update entry, in order, assign it
when `merge_cond` holds. -/
def update_vulnerability_merge (current upd : List (String × PyVal)) :
    List (String × PyVal) :=
  upd.foldl (fun acc kv => if merge_cond kv.2 then dictSet acc kv.1 kv.2 else acc) current

/-- The per-key function the merge computes (exhibited for the key-wise
independence claim): the update's value when present and accepted by
`merge_cond`, the snapshot's value otherwise. -/
def merge_pointwise (sv uv : Option PyVal) : Option PyVal :=
  match uv with
  | some v => if merge_cond v then some v else sv
  | none => sv

/-- The merge loop of `update_content_block` (api.py:260-262). The source
guard `isinstance(value, str)` is identically true there because
`UpdateContentBlock.content` is typed `Dict[str, str]` (types.py:104), so every
entry — blank strings included — is assigned. -/
def update_content_block_fields (fields content : List (String × String)) :
    List (String × String) :=
  content.foldl (fun acc kv => dictSet acc kv.1 kv.2) fields

/-- The record reconstruction of `get_vulnerability` (api.py:170-181):
`{"id": ..., "author": ...}` extended, in order, with every fetched field. -/
def reconstruct (i : Int) (author : String) (fields : List (String × PyVal)) :
    List (String × PyVal) :=
  fields.foldl (fun acc kv => dictSet acc kv.1 kv.2)
    [("id", PyVal.vInt i), ("author", PyVal.vStr author)]

/-- The existence scan of `upsert_document_property` (api.py:296-299):
`any(property_name in prop and prop[property_name] is not None for prop in doc_properties)`. -/
def property_exists (props : List (List (String × PyVal))) (name : String) : Bool :=
  props.any fun prop =>
    match dictGet? prop name with
    | some v => decide (v ≠ PyVal.vNone)
    | none => false

/-- The argument filter shared by the create/update vulnerability tools
(server.py:213 and server.py:313): `{k: str(v) for k, v in kwargs.items() if v is not None}`. -/
def filtered_string_args (kwargs : List (String × PyVal)) : List (String × String) :=
  (kwargs.filter fun kv => decide (kv.2 ≠ PyVal.vNone)).map fun kv => (kv.1, pyStr kv.2)

/-- View a `Dict[str, str]` as a `Dict[str, Any]` field mapping. -/
def toPyFields (l : List (String × String)) : List (String × PyVal) :=
  l.map fun kv => (kv.1, PyVal.vStr kv.2)

/-- JSON request bodies. -/
inductive JVal where
  | jNull
  | jStr (s : String)
  | jInt (n : Int)
  | jArr (xs : List JVal)
  | jObj (fields : List (String × JVal))

/-- One HTTP request issued through `DradisAPI._request` (api.py:54-96):
method, endpoint path (query string included), the optional
`Dradis-Project-Id` header, and the optional JSON body. -/
structure Request where
  method : String
  path : String
  projectId : Option Int
  body : Option JVal

/-- The `CreateProject` payload (types.py:50-56). -/
structure CreateProject where
  name : String
  team_id : Int
  report_template_properties_id : Option Int
  author_ids : Option (List Int)
  template : Option String

/-- `{"project": project.model_dump()}` (api.py:115). -/
def createProjectBody (p : CreateProject) : JVal :=
  JVal.jObj [("project", JVal.jObj
    [("name", JVal.jStr p.name),
     ("team_id", JVal.jInt p.team_id),
     ("report_template_properties_id",
        match p.report_template_properties_id with
        | none => JVal.jNull
        | some n => JVal.jInt n),
     ("author_ids",
        match p.author_ids with
        | none => JVal.jNull
        | some l => JVal.jArr (l.map JVal.jInt)),
     ("template",
        match p.template with
        | none => JVal.jNull
        | some t => JVal.jStr t)])]

/-- The configured project-creation defaults (config.py:25-27). -/
structure DradisConfig where
  dradis_default_team_id : Option Int
  dradis_default_template_id : Option Int
  dradis_default_template : Option String

/-- The upstream Dradis instance, as an oracle answering each kind of request
the client issues. `writeResp` covers the response handling of POST/PUT writes. -/
structure Upstream where
  getProject : Int → Except String Unit
  createProject : CreateProject → Except String Int
  listIssues : Int → Option Int → Except String Unit
  getIssue : Int → Int → Except String (Int × String × List (String × PyVal))
  listBlocks : Int → Except String Unit
  getBlock : Int → Int → Except String (List (String × String))
  listDocProps : Int → Except String (List (List (String × PyVal)))
  writeResp : Request → Except String Unit

/-- The session-scoped server state (server.py:42-46); only the `project_id`
slot matters to the tools' control flow. -/
structure ServerState where
  project_id : Option Int
deriving DecidableEq, Repr

/-- The message of the precondition error raised by every project-scoped tool. -/
def noProjectMsg : String :=
  "No project ID set. Use set_project or create_project first."

/-- The guard opening every project-scoped tool (e.g. server.py:132-134):
`project_id = server_state.get("project_id"); if not project_id: raise ...`.
Python falsiness makes both `None` and `0` fail the guard. -/
def require_project (s : ServerState) : Except String Int :=
  match s.project_id with
  | none => Except.error noProjectMsg
  | some pid => if pid = 0 then Except.error noProjectMsg else Except.ok pid

/-- `set_project` (server.py:107-122): verify the project exists by a read;
commit the id into the session only after that read returns. An upstream
failure propagates as the exception of the awaited call, leaving the state
untouched. -/
def set_project (up : Upstream) (s : ServerState) (pid : Int) :
    ServerState × Except String String :=
  match up.getProject pid with
  | Except.error e => (s, Except.error e)
  | Except.ok _ =>
      (⟨some pid⟩, Except.ok ("Project ID set to " ++ toString pid))

/-- The defaulting and validation prelude of `create_project`
(server.py:165-184). Python tests the configured defaults for truthiness
(`if team_id is None and config.dradis_default_team_id:`), so a default of `0`
(or an empty template name) is never applied. Returns the `CreateProject`
payload, or `none` when `team_id` is still absent after defaulting. -/
def resolve_create_project (cfg : DradisConfig) (name : String)
    (team_id rtpi : Option Int) (author_ids : Option (List Int))
    (template : Option String) : Option CreateProject :=
  let team_id :=
    match team_id, cfg.dradis_default_team_id with
    | none, some t => if t ≠ 0 then some t else none
    | t, _ => t
  let rtpi :=
    match rtpi, cfg.dradis_default_template_id with
    | none, some t => if t ≠ 0 then some t else none
    | t, _ => t
  let template :=
    match template, cfg.dradis_default_template with
    | none, some t => if t ≠ "" then some t else none
    | t, _ => t
  match team_id with
  | none => none
  | some tid => some ⟨name, tid, rtpi, author_ids, template⟩

/-- `create_project` (server.py:142-192): build the payload, POST it, and on
success commit the returned project id as the session's current project.
Result: new state, the requests issued, and the outcome. -/
def create_project_tool (cfg : DradisConfig) (up : Upstream) (s : ServerState)
    (name : String) (team_id rtpi : Option Int) (author_ids : Option (List Int))
    (template : Option String) :
    ServerState × List Request × Except String Unit :=
  match resolve_create_project cfg name team_id rtpi author_ids template with
  | none => (s, [], Except.error "team_id is required and DRADIS_DEFAULT_TEAM_ID is not set")
  | some proj =>
      let req : Request := ⟨"POST", "/pro/api/projects", none, some (createProjectBody proj)⟩
      match up.createProject proj with
      | Except.error e => (s, [req], Except.error e)
      | Except.ok n => (⟨some n⟩, [req], Except.ok ())

/-- `get_project_details` (server.py:126-139). -/
def get_project_details_tool (s : ServerState) (up : Upstream) :
    List Request × Except String Unit :=
  match require_project s with
  | Except.error e => ([], Except.error e)
  | Except.ok pid =>
      ([⟨"GET", "/pro/api/projects/" ++ toString pid, none, none⟩], up.getProject pid)

/-- `create_vulnerability` (server.py:198-220 together with api.py:183-198):
drop null arguments, stringify the rest, encode, POST. -/
def create_vulnerability_tool (s : ServerState) (kwargs : List (String × PyVal))
    (up : Upstream) : List Request × Except String Unit :=
  match require_project s with
  | Except.error e => ([], Except.error e)
  | Except.ok pid =>
      let data := filtered_string_args kwargs
      let req : Request := ⟨"POST", "/pro/api/issues", some pid,
        some (JVal.jObj [("issue", JVal.jObj
          [("text", JVal.jStr (construct_dradis_response (toPyFields data)))])])⟩
      ([req], up.writeResp req)

/-- The issues endpoint with the truthiness-guarded page parameter
(api.py:125-127): `if page:` skips both `None` and `0`. -/
def issues_endpoint (page : Option Int) : String :=
  match page with
  | none => "/pro/api/issues"
  | some p => if p ≠ 0 then "/pro/api/issues?page=" ++ toString p else "/pro/api/issues"

/-- `get_vulnerabilities` (server.py:224-246 with api.py:119-139). -/
def get_vulnerabilities_tool (s : ServerState) (page : Option Int) (up : Upstream) :
    List Request × Except String Unit :=
  match require_project s with
  | Except.error e => ([], Except.error e)
  | Except.ok pid =>
      ([⟨"GET", issues_endpoint page, some pid, none⟩], up.listIssues pid page)

/-- `get_vulnerability` (server.py:276-292 with api.py:163-181). -/
def get_vulnerability_tool (s : ServerState) (vid : Int) (up : Upstream) :
    List Request × Except String Unit :=
  match require_project s with
  | Except.error e => ([], Except.error e)
  | Except.ok pid =>
      let req : Request := ⟨"GET", "/pro/api/issues/" ++ toString vid, some pid, none⟩
      match up.getIssue pid vid with
      | Except.error e => ([req], Except.error e)
      | Except.ok _ => ([req], Except.ok ())

/-- `update_vulnerability` (server.py:296-320 with api.py:200-226): filter and
stringify the arguments, fetch the current record, merge, encode, PUT. -/
def update_vulnerability_tool (s : ServerState) (issue_id : Int)
    (kwargs : List (String × PyVal)) (up : Upstream) :
    List Request × Except String Unit :=
  match require_project s with
  | Except.error e => ([], Except.error e)
  | Except.ok pid =>
      let update_data := toPyFields (filtered_string_args kwargs)
      let getReq : Request := ⟨"GET", "/pro/api/issues/" ++ toString issue_id, some pid, none⟩
      match up.getIssue pid issue_id with
      | Except.error e => ([getReq], Except.error e)
      | Except.ok (i, author, fields) =>
          let merged := update_vulnerability_merge (reconstruct i author fields) update_data
          let putReq : Request := ⟨"PUT", "/pro/api/issues/" ++ toString issue_id, some pid,
            some (JVal.jObj [("issue", JVal.jObj
              [("text", JVal.jStr (construct_dradis_response merged))])])⟩
          ([getReq, putReq], up.writeResp putReq)

/-- `get_content_blocks` (server.py:326-339 with api.py:228-238). -/
def get_content_blocks_tool (s : ServerState) (up : Upstream) :
    List Request × Except String Unit :=
  match require_project s with
  | Except.error e => ([], Except.error e)
  | Except.ok pid =>
      ([⟨"GET", "/pro/api/content_blocks", some pid, none⟩], up.listBlocks pid)

/-- `update_content_block` (server.py:343-371 with api.py:249-279): fetch the
block, assign every update entry over its fields, re-encode, PUT. -/
def update_content_block_tool (s : ServerState) (bid : Int) (block_group : String)
    (content : List (String × String)) (up : Upstream) :
    List Request × Except String Unit :=
  match require_project s with
  | Except.error e => ([], Except.error e)
  | Except.ok pid =>
      let getReq : Request := ⟨"GET", "/pro/api/content_blocks/" ++ toString bid, some pid, none⟩
      match up.getBlock pid bid with
      | Except.error e => ([getReq], Except.error e)
      | Except.ok fields =>
          let merged := update_content_block_fields fields content
          let putReq : Request := ⟨"PUT", "/pro/api/content_blocks/" ++ toString bid, some pid,
            some (JVal.jObj [("content_block", JVal.jObj
              [("block_group", JVal.jStr block_group),
               ("content", JVal.jStr (construct_dradis_response (toPyFields merged)))])])⟩
          ([getReq, putReq], up.writeResp putReq)

/-- `get_document_properties` (server.py:377-390 with api.py:281-284). -/
def get_document_properties_tool (s : ServerState) (up : Upstream) :
    List Request × Except String Unit :=
  match require_project s with
  | Except.error e => ([], Except.error e)
  | Except.ok pid =>
      let req : Request := ⟨"GET", "/pro/api/document_properties", some pid, none⟩
      match up.listDocProps pid with
      | Except.error e => ([req], Except.error e)
      | Except.ok _ => ([req], Except.ok ())

/-- `DradisAPI.upsert_document_property` (api.py:286-318): fetch the property
list, scan it for a non-null entry under the name, then PUT (update) or POST
(create). -/
def api_upsert_document_property (pid : Int) (name value : String) (up : Upstream) :
    List Request × Except String Unit :=
  let getReq : Request := ⟨"GET", "/pro/api/document_properties", some pid, none⟩
  match up.listDocProps pid with
  | Except.error e => ([getReq], Except.error e)
  | Except.ok props =>
      if property_exists props name then
        let req : Request := ⟨"PUT", "/pro/api/document_properties/" ++ name, some pid,
          some (JVal.jObj [("document_property", JVal.jObj [("value", JVal.jStr value)])])⟩
        ([getReq, req], up.writeResp req)
      else
        let req : Request := ⟨"POST", "/pro/api/document_properties", some pid,
          some (JVal.jObj [("document_properties", JVal.jObj [(name, JVal.jStr value)])])⟩
        ([getReq, req], up.writeResp req)

/-- `upsert_document_property` tool (server.py:394-411). -/
def upsert_document_property_tool (s : ServerState) (name value : String)
    (up : Upstream) : List Request × Except String Unit :=
  match require_project s with
  | Except.error e => ([], Except.error e)
  | Except.ok pid => api_upsert_document_property pid name value up

/-- A concrete upstream whose reads all fail (a 404-ish instance), used to
instantiate oracles at concrete inputs. -/
def stubUpstream : Upstream where
  getProject := fun _ => Except.error "HTTP 404 Not Found"
  createProject := fun _ => Except.error "HTTP 404 Not Found"
  listIssues := fun _ _ => Except.error "HTTP 404 Not Found"
  getIssue := fun _ _ => Except.error "HTTP 404 Not Found"
  listBlocks := fun _ => Except.error "HTTP 404 Not Found"
  getBlock := fun _ _ => Except.error "HTTP 404 Not Found"
  listDocProps := fun _ => Except.error "HTTP 404 Not Found"
  writeResp := fun _ => Except.ok ()

/-- A concrete upstream that acknowledges every project read. -/
def okProjectUpstream : Upstream :=
  { stubUpstream with getProject := fun _ => Except.ok () }

/-- A concrete upstream whose document-property list contains exactly one
entry, mapping "owner" to null. -/
def ownerNullUpstream : Upstream :=
  { stubUpstream with listDocProps := fun _ => Except.ok [[("owner", PyVal.vNone)]] }

/-- A concrete upstream holding one content block with a single filled field. -/
def blockUpstream : Upstream :=
  { stubUpstream with getBlock := fun _ _ => Except.ok [("Description", "old text")] }

/-- A concrete upstream whose project creation reports the new project id 0. -/
def zeroCreateUpstream : Upstream :=
  { stubUpstream with createProject := fun _ => Except.ok 0 }

/-- A concrete upstream whose project creation reports the new project id 9. -/
def nineCreateUpstream : Upstream :=
  { stubUpstream with
      createProject := fun _ => Except.ok 9
      getProject := fun _ => Except.ok () }

/-! ### Helper lemmas about the dict model -/

theorem dictGet?_dictSet_self {α : Type} (d : List (String × α)) (k : String) (v : α) :
    dictGet? (dictSet d k v) k = some v := by
  induction d with
  | nil => simp [dictSet, dictGet?]
  | cons kv rest ih =>
    by_cases h : kv.1 = k
    · simp [dictSet, dictGet?, h]
    · simp [dictSet, dictGet?, h, ih]

theorem dictGet?_dictSet_ne {α : Type} (d : List (String × α)) (k k' : String) (v : α)
    (h : k' ≠ k) : dictGet? (dictSet d k v) k' = dictGet? d k' := by
  have hkk : k ≠ k' := fun hh => h hh.symm
  induction d with
  | nil => simp [dictSet, dictGet?, hkk]
  | cons kv rest ih =>
    by_cases hk : kv.1 = k
    · simp [dictSet, dictGet?, hk, hkk]
    · by_cases hk' : kv.1 = k'
      · simp [dictSet, dictGet?, hk, hk', h]
      · simp [dictSet, dictGet?, hk, hk', ih]

theorem dictGet?_eq_none_of_not_mem {α : Type} (d : List (String × α)) (k : String)
    (h : k ∉ d.map Prod.fst) : dictGet? d k = none := by
  induction d with
  | nil => rfl
  | cons kv rest ih =>
    simp only [List.map_cons, List.mem_cons] at h
    push_neg at h
    have hne : kv.1 ≠ k := fun hh => h.1 hh.symm
    simp [dictGet?, hne, ih h.2]

theorem dictGet?_eq_some_of_mem {α : Type} (d : List (String × α)) (k : String) (v : α)
    (hn : (d.map Prod.fst).Nodup) (hm : (k, v) ∈ d) : dictGet? d k = some v := by
  induction d with
  | nil => cases hm
  | cons kv rest ih =>
    simp only [List.map_cons, List.nodup_cons] at hn
    rcases List.mem_cons.mp hm with h | h
    · simp [dictGet?, ← h]
    · have hk : kv.1 ≠ k := by
        intro hh
        exact hn.1 (hh ▸ (List.mem_map.mpr ⟨(k, v), h, rfl⟩))
      simp [dictGet?, hk, ih hn.2 h]

/-- In a duplicate-free-key mapping, two entries under the same key carry the
same value. -/
theorem keys_nodup_mem_unique {α : Type} (l : List (String × α)) (k : String) (a b : α)
    (hnd : (l.map Prod.fst).Nodup) (h1 : (k, a) ∈ l) (h2 : (k, b) ∈ l) : a = b := by
  have h := (dictGet?_eq_some_of_mem l k a hnd h1).symm.trans
    (dictGet?_eq_some_of_mem l k b hnd h2)
  exact Option.some.inj h

/-- Lookup after folding dict assignments guarded by a boolean condition:
the result at `k` depends only on the update's entry at `k` (filtered by the
condition) and the base mapping's entry at `k`. -/
theorem dictGet?_foldl_set {α : Type} (cond : String × α → Bool) :
    ∀ (upd base : List (String × α)) (k : String),
      (upd.map Prod.fst).Nodup →
      dictGet? (upd.foldl (fun acc kv => if cond kv then dictSet acc kv.1 kv.2 else acc) base) k =
        (match dictGet? upd k with
         | some v => if cond (k, v) then some v else dictGet? base k
         | none => dictGet? base k) := by
  intro upd
  induction upd with
  | nil => intro base k _; rfl
  | cons u rest ih =>
    intro base k hn
    obtain ⟨ku, vu⟩ := u
    simp only [List.map_cons, List.nodup_cons] at hn
    rw [List.foldl_cons, ih _ k hn.2]
    by_cases hk : ku = k
    · subst hk
      have hrest : dictGet? rest ku = none :=
        dictGet?_eq_none_of_not_mem rest ku hn.1
      rw [hrest]
      simp only [dictGet?, if_pos rfl]
      by_cases hc : cond (ku, vu)
      · simp [hc, dictGet?_dictSet_self]
      · simp [hc]
    · have hcons : dictGet? ((ku, vu) :: rest) k = dictGet? rest k := by
        simp [dictGet?, hk]
      rw [hcons]
      have hbase : dictGet? (if cond (ku, vu) then dictSet base ku vu else base) k
          = dictGet? base k := by
        by_cases hc : cond (ku, vu)
        · rw [if_pos hc, dictGet?_dictSet_ne base ku k vu (fun hh => hk hh.symm)]
        · rw [if_neg hc]
      cases dictGet? rest k <;> simp [hbase]

/-- Lookup after the unconditional assignment fold of the content-block merge. -/
theorem dictGet?_update_content_block_fields (fields content : List (String × String))
    (k : String) (hn : (content.map Prod.fst).Nodup) :
    dictGet? (update_content_block_fields fields content) k =
      (match dictGet? content k with
       | some v => some v
       | none => dictGet? fields k) := by
  have h := dictGet?_foldl_set (fun _ => true) content fields k hn
  have hf : (fun (acc : List (String × String)) (kv : String × String) =>
      if (fun (_ : String × String) => true) kv then dictSet acc kv.1 kv.2 else acc)
      = fun acc kv => dictSet acc kv.1 kv.2 := by
    funext acc kv; simp
  rw [hf] at h
  rw [update_content_block_fields, h]
  cases dictGet? content k <;> simp

theorem dictGet?_update_vulnerability_merge (S U : List (String × PyVal)) (k : String)
    (hn : (U.map Prod.fst).Nodup) :
    dictGet? (update_vulnerability_merge S U) k =
      merge_pointwise (dictGet? S k) (dictGet? U k) := by
  have h := dictGet?_foldl_set (fun kv => merge_cond kv.2) U S k hn
  rw [update_vulnerability_merge, h]
  cases dictGet? U k <;> rfl

/-! ### Helper lemmas about the marker count -/

theorem hbStraddle_eq_zero_of_left (a b : List Char) (h : a.getLast? ≠ some '#') :
    hbStraddle a b = 0 := by
  unfold hbStraddle
  rw [if_neg]
  exact fun hc => h hc.1

theorem hbStraddle_eq_zero_of_right (a b : List Char) (h : b.head? ≠ some '[') :
    hbStraddle a b = 0 := by
  unfold hbStraddle
  rw [if_neg]
  exact fun hc => h hc.2

theorem head?_cons_ne (c : Char) (l : List Char) (h : c ≠ '[') :
    (c :: l).head? ≠ some '[' := by
  simp [h]

theorem countHB_append (a : List Char) :
    ∀ b, countHB (a ++ b) = countHB a + countHB b + hbStraddle a b := by
  induction a with
  | nil =>
    intro b
    simp [countHB, hbStraddle]
  | cons c t ih =>
    intro b
    cases t with
    | nil =>
      cases b with
      | nil => simp [countHB, hbStraddle]
      | cons d b' =>
        show countHB (c :: d :: b') = countHB [c] + countHB (d :: b') + hbStraddle [c] (d :: b')
        simp only [countHB, hbStraddle, List.getLast?_singleton, List.head?_cons,
          Option.some.injEq]
        by_cases h : c = '#' ∧ d = '['
        · rw [if_pos h]; omega
        · rw [if_neg h]; omega
    | cons c2 t' =>
      have h := ih b
      have hs : hbStraddle (c :: c2 :: t') b = hbStraddle (c2 :: t') b := by
        unfold hbStraddle
        rw [List.getLast?_cons_cons]
      simp only [List.cons_append] at h ⊢
      simp only [countHB]
      rw [h, hs]
      omega

theorem entry_block_data (k : String) (v : PyVal) :
    (entry_block k v).data =
      '#' :: '[' :: (k.data ++
        (']' :: '#' :: '\r' :: '\n' :: ((pyStr v).data ++ ['\r', '\n', '\r', '\n']))) := by
  simp only [entry_block, String.data_append]
  simp [List.append_assoc]

theorem countHB_entry (k : String) (v : PyVal)
    (hk : countHB k.data = 0) (hv : countHB (pyStr v).data = 0) :
    countHB (entry_block k v).data = 1 := by
  rw [entry_block_data]
  have h2 : countHB ('[' :: k.data) = 0 := by
    have h := countHB_append ['['] k.data
    simp only [List.singleton_append] at h
    rw [h, hk, hbStraddle_eq_zero_of_left _ _ (by decide)]
    decide
  have h3 : countHB ('\n' :: ((pyStr v).data ++ ['\r', '\n', '\r', '\n'])) = 0 := by
    rw [← List.singleton_append, ← List.append_assoc, countHB_append,
      countHB_append ['\n'] (pyStr v).data, hv,
      hbStraddle_eq_zero_of_left ['\n'] _ (by decide),
      hbStraddle_eq_zero_of_right _ _ (head?_cons_ne '\r' _ (by decide))]
    decide
  have hsplit : ('#' :: '[' :: (k.data ++
        (']' :: '#' :: '\r' :: '\n' :: ((pyStr v).data ++ ['\r', '\n', '\r', '\n']))))
      = ('#' :: '[' :: k.data) ++
        (']' :: '#' :: '\r' :: '\n' :: ((pyStr v).data ++ ['\r', '\n', '\r', '\n'])) := by
    simp
  rw [hsplit, countHB_append,
    hbStraddle_eq_zero_of_right _ _ (head?_cons_ne ']' _ (by decide))]
  simp only [countHB, h2, h3]
  norm_num
  decide

theorem foldl_construct (M : List (String × PyVal)) :
    ∀ a, M.foldl (fun acc kv => acc ++ entry_block kv.1 kv.2) a = a ++ encode_spec M := by
  induction M with
  | nil => intro a; simp [encode_spec]
  | cons kv rest ih =>
    intro a
    rw [List.foldl_cons, ih, encode_spec, String.append_assoc]

theorem construct_eq_encode_spec (M : List (String × PyVal)) :
    construct_dradis_response M = encode_spec M := by
  rw [construct_dradis_response, foldl_construct, String.empty_append]

theorem encode_spec_head (kv : String × PyVal) (rest : List (String × PyVal)) :
    (encode_spec (kv :: rest)).data.head? = some '#' := by
  rw [encode_spec, String.data_append, entry_block_data]
  rfl

theorem countHB_encode_spec (M : List (String × PyVal))
    (hc : ∀ kv ∈ M, countHB kv.1.data = 0 ∧ countHB (pyStr kv.2).data = 0) :
    countHB (encode_spec M).data = M.length := by
  induction M with
  | nil => rfl
  | cons kv rest ih =>
    have hkv := hc kv (by simp)
    have hrest : ∀ x ∈ rest, countHB x.1.data = 0 ∧ countHB (pyStr x.2).data = 0 :=
      fun x hx => hc x (by simp [hx])
    have hs : hbStraddle (entry_block kv.1 kv.2).data (encode_spec rest).data = 0 := by
      cases rest with
      | nil =>
        apply hbStraddle_eq_zero_of_right
        decide
      | cons kv' rest' =>
        apply hbStraddle_eq_zero_of_right
        rw [encode_spec_head]
        decide
    rw [encode_spec, String.data_append, countHB_append,
      countHB_entry kv.1 kv.2 hkv.1 hkv.2, ih hrest, hs]
    simp only [List.length_cons]
    omega

theorem encode_spec_ends_with_sep (M : List (String × PyVal)) (h : M ≠ []) :
    ∃ t, encode_spec M = t ++ "\r\n\r\n" := by
  induction M with
  | nil => exact absurd rfl h
  | cons kv rest ih =>
    cases rest with
    | nil =>
      refine ⟨"#[" ++ kv.1 ++ "]#\r\n" ++ pyStr kv.2, ?_⟩
      rw [encode_spec, encode_spec, String.append_empty, entry_block]
    | cons kv' rest' =>
      obtain ⟨t, ht⟩ := ih (by simp)
      refine ⟨entry_block kv.1 kv.2 ++ t, ?_⟩
      rw [encode_spec, ht, String.append_assoc]

/-! ### Claim theorems -/

/-- Claim C1, evaluated at the failing input: on the spec's own scenario the
merge of `update_vulnerability` overwrites the blank `Severity` value instead
of retaining `High`. The condition on api.py:213 parses as
`(isinstance(value, str) and value.strip()) or (value is not None)`, which is
true for the empty string, contradicting the comment on api.py:210
("only update defined non-empty values") and the spec's blank-skipping rule. -/
theorem merge_overwrites_blank_value_at_spec_scenario :
    update_vulnerability_merge
        [("Title", PyVal.vStr "Old"), ("Severity", PyVal.vStr "High")]
        [("Title", PyVal.vStr "New"), ("Severity", PyVal.vStr ""), ("Owner", PyVal.vStr "alice")]
      = [("Title", PyVal.vStr "New"), ("Severity", PyVal.vStr ""), ("Owner", PyVal.vStr "alice")] ∧
    dictGet? (update_vulnerability_merge
        [("Title", PyVal.vStr "Old"), ("Severity", PyVal.vStr "High")]
        [("Title", PyVal.vStr "New"), ("Severity", PyVal.vStr ""), ("Owner", PyVal.vStr "alice")])
        "Severity" ≠ some (PyVal.vStr "High") := by
  decide

/-- Claim C2, counterexample to the marker-count clause as stated: when a value
itself contains the marker sequence, the encoded block contains more than
`len(M)` occurrences of the `#[` marker opening (here 2 for a single entry),
because the encoder performs no escaping. -/
theorem construct_marker_count_counterexample :
    countHB (construct_dradis_response [("A", PyVal.vStr "#[B]#")]).data = 2 ∧
    ([("A", PyVal.vStr "#[B]#")] : List (String × PyVal)).length = 1 := by
  constructor
  · decide
  · rfl

/-- Claim C2 (amended): the encoder produces exactly the concatenation, in
mapping order, of `#[name]#`, CRLF, the value's textual form, and two CRLFs
per entry (this holds for every mapping, so encoding is total); every
non-empty encoded block ends with two CRLF sequences; and — provided no key
or value contains the marker-opening sequence `#[` — the block contains
exactly `len(M)` occurrences of that marker opening. -/
theorem construct_dradis_response_spec (M : List (String × PyVal)) :
    construct_dradis_response M = encode_spec M ∧
    (M ≠ [] → ∃ t, construct_dradis_response M = t ++ "\r\n\r\n") ∧
    ((∀ kv ∈ M, countHB kv.1.data = 0 ∧ countHB (pyStr kv.2).data = 0) →
      countHB (construct_dradis_response M).data = M.length) := by
  refine ⟨construct_eq_encode_spec M, ?_, ?_⟩
  · intro h
    rw [construct_eq_encode_spec M]
    exact encode_spec_ends_with_sep M h
  · intro h
    rw [construct_eq_encode_spec M]
    exact countHB_encode_spec M h

/-- Witness for C2's amended theorem at a concrete one-entry mapping. -/
theorem construct_dradis_response_spec_witness :
    construct_dradis_response [("Title", PyVal.vStr "x")]
      = encode_spec [("Title", PyVal.vStr "x")] ∧
    (∃ t, construct_dradis_response [("Title", PyVal.vStr "x")] = t ++ "\r\n\r\n") ∧
    countHB (construct_dradis_response [("Title", PyVal.vStr "x")]).data = 1 := by
  have h := construct_dradis_response_spec [("Title", PyVal.vStr "x")]
  refine ⟨h.1, h.2.1 (by simp), ?_⟩
  have h2 := h.2.2 (by decide)
  simpa using h2

/-- Claim C7: the merge of `update_vulnerability` is key-wise independent —
the result at key `k` is `merge_pointwise` of the snapshot's and the update's
entries at `k`, so changing other keys never changes the result at `k`. -/
theorem merge_keywise_independent (S U : List (String × PyVal)) (k : String)
    (hU : (U.map Prod.fst).Nodup) :
    dictGet? (update_vulnerability_merge S U) k =
      merge_pointwise (dictGet? S k) (dictGet? U k) ∧
    ∀ (S' U' : List (String × PyVal)), (U'.map Prod.fst).Nodup →
      dictGet? S' k = dictGet? S k → dictGet? U' k = dictGet? U k →
      dictGet? (update_vulnerability_merge S' U') k =
        dictGet? (update_vulnerability_merge S U) k := by
  refine ⟨dictGet?_update_vulnerability_merge S U k hU, ?_⟩
  intro S' U' hU' hS hU2
  rw [dictGet?_update_vulnerability_merge S' U' k hU',
    dictGet?_update_vulnerability_merge S U k hU, hS, hU2]

/-- Witness for C7 at a concrete snapshot/update pair. -/
theorem merge_keywise_independent_witness :
    dictGet? (update_vulnerability_merge [("Title", PyVal.vStr "Old")]
        [("Title", PyVal.vStr "New")]) "Title" =
      merge_pointwise (dictGet? [("Title", PyVal.vStr "Old")] "Title")
        (dictGet? [("Title", PyVal.vStr "New")] "Title") :=
  (merge_keywise_independent [("Title", PyVal.vStr "Old")]
    [("Title", PyVal.vStr "New")] "Title" (by simp)).1

/-- Claim C3: when the verifying read of `set_project` fails, the error
propagates and the session state — hence the active project id, whatever it
was, set or not — is exactly what it was before the call; when no id had ever
been set, a subsequent `get_project_details` still fails with the precondition
error and issues no request. The id is committed when the verifying read
succeeds. -/
theorem set_project_not_committed_on_failure (up up2 : Upstream) (s : ServerState)
    (pid : Int) (e : String) (u : Unit)
    (he : up.getProject pid = Except.error e)
    (hok : up2.getProject pid = Except.ok u) :
    (set_project up s pid).1 = s ∧
    (set_project up s pid).2 = Except.error e ∧
    (s.project_id = none →
      get_project_details_tool (set_project up s pid).1 up
        = ([], Except.error noProjectMsg)) ∧
    (set_project up2 s pid).1.project_id = some pid := by
  have hset : set_project up s pid = (s, Except.error e) := by
    simp [set_project, he]
  refine ⟨by rw [hset], by rw [hset], ?_, by simp [set_project, hok]⟩
  intro h0
  rw [hset]
  simp [get_project_details_tool, require_project, h0]

/-- Witness for C3 at a concrete failing upstream, applied both to a session
holding a previously committed id (which the failed set leaves unchanged) and
to an unset session (where the subsequent read still hits the precondition
error). -/
theorem set_project_not_committed_on_failure_witness :
    (set_project stubUpstream ⟨some 7⟩ 42).1 = (⟨some 7⟩ : ServerState) ∧
    (set_project stubUpstream ⟨some 7⟩ 42).2 = Except.error "HTTP 404 Not Found" ∧
    (set_project stubUpstream ⟨none⟩ 42).1 = (⟨none⟩ : ServerState) ∧
    get_project_details_tool (set_project stubUpstream ⟨none⟩ 42).1 stubUpstream
      = ([], Except.error noProjectMsg) ∧
    (set_project okProjectUpstream ⟨none⟩ 42).1.project_id = some 42 := by
  have h1 := set_project_not_committed_on_failure stubUpstream okProjectUpstream
    ⟨some 7⟩ 42 "HTTP 404 Not Found" () rfl rfl
  have h2 := set_project_not_committed_on_failure stubUpstream okProjectUpstream
    ⟨none⟩ 42 "HTTP 404 Not Found" () rfl rfl
  exact ⟨h1.1, h1.2.1, h2.1, h2.2.2.1 rfl, h2.2.2.2⟩

/-- Claim C4: with no active project id, every project-scoped tool fails
immediately with the precondition error and issues no request. -/
theorem unset_project_guard_blocks_all_tools (s : ServerState)
    (h : s.project_id = none) (up : Upstream) (kwargs : List (String × PyVal))
    (page : Option Int) (vid bid : Int) (bg : String)
    (content : List (String × String)) (pname pval : String) :
    get_project_details_tool s up = ([], Except.error noProjectMsg) ∧
    create_vulnerability_tool s kwargs up = ([], Except.error noProjectMsg) ∧
    get_vulnerabilities_tool s page up = ([], Except.error noProjectMsg) ∧
    get_vulnerability_tool s vid up = ([], Except.error noProjectMsg) ∧
    update_vulnerability_tool s vid kwargs up = ([], Except.error noProjectMsg) ∧
    get_content_blocks_tool s up = ([], Except.error noProjectMsg) ∧
    update_content_block_tool s bid bg content up = ([], Except.error noProjectMsg) ∧
    get_document_properties_tool s up = ([], Except.error noProjectMsg) ∧
    upsert_document_property_tool s pname pval up = ([], Except.error noProjectMsg) := by
  have hr : require_project s = Except.error noProjectMsg := by
    simp [require_project, h]
  refine ⟨?_, ?_, ?_, ?_, ?_, ?_, ?_, ?_, ?_⟩ <;>
    simp [get_project_details_tool, create_vulnerability_tool, get_vulnerabilities_tool,
      get_vulnerability_tool, update_vulnerability_tool, get_content_blocks_tool,
      update_content_block_tool, get_document_properties_tool,
      upsert_document_property_tool, hr]

/-- Witness for C4 at a concrete unset session and concrete arguments. -/
theorem unset_project_guard_blocks_all_tools_witness :
    get_project_details_tool ⟨none⟩ stubUpstream = ([], Except.error noProjectMsg) ∧
    create_vulnerability_tool ⟨none⟩ [] stubUpstream = ([], Except.error noProjectMsg) ∧
    get_vulnerabilities_tool ⟨none⟩ none stubUpstream = ([], Except.error noProjectMsg) ∧
    get_vulnerability_tool ⟨none⟩ 1 stubUpstream = ([], Except.error noProjectMsg) ∧
    update_vulnerability_tool ⟨none⟩ 1 [] stubUpstream = ([], Except.error noProjectMsg) ∧
    get_content_blocks_tool ⟨none⟩ stubUpstream = ([], Except.error noProjectMsg) ∧
    update_content_block_tool ⟨none⟩ 1 "g" [] stubUpstream = ([], Except.error noProjectMsg) ∧
    get_document_properties_tool ⟨none⟩ stubUpstream = ([], Except.error noProjectMsg) ∧
    upsert_document_property_tool ⟨none⟩ "a" "b" stubUpstream
      = ([], Except.error noProjectMsg) :=
  unset_project_guard_blocks_all_tools ⟨none⟩ rfl stubUpstream [] none 1 1 "g" [] "a" "b"

/-- Claim C5: `upsert_document_property` takes the PUT (update) path exactly
when the fetched list has an entry mapping the name to a non-null value, and
the POST (create) path otherwise; either way the GET of the property list
comes first. -/
theorem upsert_put_iff_nonnull_property (pid : Int) (name value : String)
    (up : Upstream) (props : List (List (String × PyVal)))
    (h : up.listDocProps pid = Except.ok props) :
    ((∃ prop ∈ props, ∃ v, dictGet? prop name = some v ∧ v ≠ PyVal.vNone) →
      (api_upsert_document_property pid name value up).1 =
        [⟨"GET", "/pro/api/document_properties", some pid, none⟩,
         ⟨"PUT", "/pro/api/document_properties/" ++ name, some pid,
           some (JVal.jObj [("document_property", JVal.jObj [("value", JVal.jStr value)])])⟩]) ∧
    ((¬ ∃ prop ∈ props, ∃ v, dictGet? prop name = some v ∧ v ≠ PyVal.vNone) →
      (api_upsert_document_property pid name value up).1 =
        [⟨"GET", "/pro/api/document_properties", some pid, none⟩,
         ⟨"POST", "/pro/api/document_properties", some pid,
           some (JVal.jObj [("document_properties", JVal.jObj [(name, JVal.jStr value)])])⟩]) := by
  have hiff : property_exists props name = true ↔
      ∃ prop ∈ props, ∃ v, dictGet? prop name = some v ∧ v ≠ PyVal.vNone := by
    rw [property_exists, List.any_eq_true]
    constructor
    · rintro ⟨prop, hmem, hp⟩
      refine ⟨prop, hmem, ?_⟩
      cases hv : dictGet? prop name with
      | none => rw [hv] at hp; exact Bool.noConfusion hp
      | some v => rw [hv] at hp; exact ⟨v, rfl, of_decide_eq_true hp⟩
    · rintro ⟨prop, hmem, v, hv, hne⟩
      exact ⟨prop, hmem, by rw [hv]; exact decide_eq_true hne⟩
  constructor
  · intro hex
    have hp : property_exists props name = true := hiff.mpr hex
    simp [api_upsert_document_property, h, hp]
  · intro hex
    have hp : property_exists props name = false := by
      rcases Bool.eq_false_or_eq_true (property_exists props name) with ht | hf
      · exact absurd (hiff.mp ht) hex
      · exact hf
    simp [api_upsert_document_property, h, hp]

/-- Witness for C5: a list containing only `{"owner": null}` is treated as
"does not exist", so upsert issues the POST (create) request. -/
theorem upsert_put_iff_nonnull_property_witness :
    (api_upsert_document_property 7 "owner" "bob" ownerNullUpstream).1 =
      [⟨"GET", "/pro/api/document_properties", some 7, none⟩,
       ⟨"POST", "/pro/api/document_properties", some 7,
         some (JVal.jObj [("document_properties", JVal.jObj [("owner", JVal.jStr "bob")])])⟩] := by
  have h := upsert_put_iff_nonnull_property 7 "owner" "bob" ownerNullUpstream
    [[("owner", PyVal.vNone)]] rfl
  apply h.2
  rintro ⟨prop, hmem, v, hv, hne⟩
  rw [List.mem_singleton] at hmem
  subst hmem
  rw [show dictGet? [("owner", PyVal.vNone)] "owner" = some PyVal.vNone from rfl] at hv
  exact hne (Option.some.inj hv).symm

/-- Claim C6: `create_vulnerability` drops every null-valued argument before
encoding, coerces every non-null argument to its text form, and sends exactly
the encoding of the filtered mapping; in particular
`{Rating: "High", CVE: None}` is sent as `{"Rating": "High"}`. -/
theorem create_vulnerability_drops_null_args (s : ServerState) (pid : Int)
    (kwargs : List (String × PyVal)) (up : Upstream)
    (hs : s.project_id = some pid) (hpid : pid ≠ 0)
    (hnd : (kwargs.map Prod.fst).Nodup) :
    (∀ k v, (k, v) ∈ kwargs → v = PyVal.vNone →
        k ∉ (filtered_string_args kwargs).map Prod.fst) ∧
    (∀ k v, (k, v) ∈ kwargs → v ≠ PyVal.vNone →
        (k, pyStr v) ∈ filtered_string_args kwargs) ∧
    create_vulnerability_tool s kwargs up =
      ([⟨"POST", "/pro/api/issues", some pid,
        some (JVal.jObj [("issue", JVal.jObj [("text",
          JVal.jStr (construct_dradis_response (toPyFields (filtered_string_args kwargs))))])])⟩],
       up.writeResp ⟨"POST", "/pro/api/issues", some pid,
        some (JVal.jObj [("issue", JVal.jObj [("text",
          JVal.jStr (construct_dradis_response (toPyFields (filtered_string_args kwargs))))])])⟩) ∧
    filtered_string_args [("Rating", PyVal.vStr "High"), ("CVE", PyVal.vNone)]
      = [("Rating", "High")] := by
  refine ⟨?_, ?_, ?_, rfl⟩
  · intro k v hm he hk
    subst he
    rw [filtered_string_args, List.map_map] at hk
    obtain ⟨kv, hkv, hfst⟩ := List.mem_map.mp hk
    have hkv2 := List.mem_filter.mp hkv
    have hne : kv.2 ≠ PyVal.vNone := of_decide_eq_true hkv2.2
    have hkeq : kv.1 = k := hfst
    have : PyVal.vNone = kv.2 := by
      apply keys_nodup_mem_unique kwargs k _ _ hnd hm
      rw [← hkeq]
      exact hkv2.1
    exact hne this.symm
  · intro k v hm hne
    rw [filtered_string_args]
    refine List.mem_map.mpr ⟨(k, v), ?_, rfl⟩
    exact List.mem_filter.mpr ⟨hm, decide_eq_true hne⟩
  · simp [create_vulnerability_tool, require_project, hs, hpid]

/-- Witness for C6 at the spec's concrete arguments. -/
theorem create_vulnerability_drops_null_args_witness :
    "CVE" ∉ (filtered_string_args
        [("Rating", PyVal.vStr "High"), ("CVE", PyVal.vNone)]).map Prod.fst ∧
    ("Rating", "High") ∈ filtered_string_args
        [("Rating", PyVal.vStr "High"), ("CVE", PyVal.vNone)] ∧
    filtered_string_args [("Rating", PyVal.vStr "High"), ("CVE", PyVal.vNone)]
      = [("Rating", "High")] := by
  have h := create_vulnerability_drops_null_args ⟨some 1⟩ 1
    [("Rating", PyVal.vStr "High"), ("CVE", PyVal.vNone)] stubUpstream rfl
    (by decide) (by decide)
  exact ⟨h.1 "CVE" PyVal.vNone (by simp) rfl,
    h.2.1 "Rating" (PyVal.vStr "High") (by simp) (by decide), h.2.2.2⟩

/-- Claim C8: a session whose project id is 0 is indistinguishable from an
unset session: `set_project 0` commits the id when the upstream has such a
project, yet every project-scoped tool then fails exactly as in the unset
state, because the guard tests Python falsiness rather than presence. -/
theorem zero_project_id_treated_as_unset (up : Upstream) (s : ServerState) (u : Unit)
    (hok : up.getProject 0 = Except.ok u) (kwargs : List (String × PyVal))
    (page : Option Int) (vid bid : Int) (bg : String)
    (content : List (String × String)) (pname pval : String) :
    (set_project up s 0).1 = (⟨some 0⟩ : ServerState) ∧
    (get_project_details_tool ⟨some 0⟩ up = get_project_details_tool ⟨none⟩ up ∧
      get_project_details_tool ⟨some 0⟩ up = ([], Except.error noProjectMsg)) ∧
    (create_vulnerability_tool ⟨some 0⟩ kwargs up = create_vulnerability_tool ⟨none⟩ kwargs up ∧
      create_vulnerability_tool ⟨some 0⟩ kwargs up = ([], Except.error noProjectMsg)) ∧
    (get_vulnerabilities_tool ⟨some 0⟩ page up = get_vulnerabilities_tool ⟨none⟩ page up ∧
      get_vulnerabilities_tool ⟨some 0⟩ page up = ([], Except.error noProjectMsg)) ∧
    (get_vulnerability_tool ⟨some 0⟩ vid up = get_vulnerability_tool ⟨none⟩ vid up ∧
      get_vulnerability_tool ⟨some 0⟩ vid up = ([], Except.error noProjectMsg)) ∧
    (update_vulnerability_tool ⟨some 0⟩ vid kwargs up = update_vulnerability_tool ⟨none⟩ vid kwargs up ∧
      update_vulnerability_tool ⟨some 0⟩ vid kwargs up = ([], Except.error noProjectMsg)) ∧
    (get_content_blocks_tool ⟨some 0⟩ up = get_content_blocks_tool ⟨none⟩ up ∧
      get_content_blocks_tool ⟨some 0⟩ up = ([], Except.error noProjectMsg)) ∧
    (update_content_block_tool ⟨some 0⟩ bid bg content up = update_content_block_tool ⟨none⟩ bid bg content up ∧
      update_content_block_tool ⟨some 0⟩ bid bg content up = ([], Except.error noProjectMsg)) ∧
    (get_document_properties_tool ⟨some 0⟩ up = get_document_properties_tool ⟨none⟩ up ∧
      get_document_properties_tool ⟨some 0⟩ up = ([], Except.error noProjectMsg)) ∧
    (upsert_document_property_tool ⟨some 0⟩ pname pval up = upsert_document_property_tool ⟨none⟩ pname pval up ∧
      upsert_document_property_tool ⟨some 0⟩ pname pval up = ([], Except.error noProjectMsg)) := by
  have hr0 : require_project ⟨some 0⟩ = Except.error noProjectMsg := by
    simp [require_project]
  have hrn : require_project ⟨none⟩ = Except.error noProjectMsg := rfl
  refine ⟨by simp [set_project, hok], ?_, ?_, ?_, ?_, ?_, ?_, ?_, ?_, ?_⟩ <;>
    constructor <;>
    simp [get_project_details_tool, create_vulnerability_tool, get_vulnerabilities_tool,
      get_vulnerability_tool, update_vulnerability_tool, get_content_blocks_tool,
      update_content_block_tool, get_document_properties_tool,
      upsert_document_property_tool, hr0, hrn]

/-- Witness for C8 at a concrete upstream that has a project with id 0. -/
theorem zero_project_id_treated_as_unset_witness :
    (set_project okProjectUpstream ⟨none⟩ 0).1 = (⟨some 0⟩ : ServerState) ∧
    (get_project_details_tool ⟨some 0⟩ okProjectUpstream
        = get_project_details_tool ⟨none⟩ okProjectUpstream ∧
      get_project_details_tool ⟨some 0⟩ okProjectUpstream
        = ([], Except.error noProjectMsg)) ∧
    (create_vulnerability_tool ⟨some 0⟩ [] okProjectUpstream
        = create_vulnerability_tool ⟨none⟩ [] okProjectUpstream ∧
      create_vulnerability_tool ⟨some 0⟩ [] okProjectUpstream
        = ([], Except.error noProjectMsg)) ∧
    (get_vulnerabilities_tool ⟨some 0⟩ none okProjectUpstream
        = get_vulnerabilities_tool ⟨none⟩ none okProjectUpstream ∧
      get_vulnerabilities_tool ⟨some 0⟩ none okProjectUpstream
        = ([], Except.error noProjectMsg)) ∧
    (get_vulnerability_tool ⟨some 0⟩ 1 okProjectUpstream
        = get_vulnerability_tool ⟨none⟩ 1 okProjectUpstream ∧
      get_vulnerability_tool ⟨some 0⟩ 1 okProjectUpstream
        = ([], Except.error noProjectMsg)) ∧
    (update_vulnerability_tool ⟨some 0⟩ 1 [] okProjectUpstream
        = update_vulnerability_tool ⟨none⟩ 1 [] okProjectUpstream ∧
      update_vulnerability_tool ⟨some 0⟩ 1 [] okProjectUpstream
        = ([], Except.error noProjectMsg)) ∧
    (get_content_blocks_tool ⟨some 0⟩ okProjectUpstream
        = get_content_blocks_tool ⟨none⟩ okProjectUpstream ∧
      get_content_blocks_tool ⟨some 0⟩ okProjectUpstream
        = ([], Except.error noProjectMsg)) ∧
    (update_content_block_tool ⟨some 0⟩ 1 "g" [] okProjectUpstream
        = update_content_block_tool ⟨none⟩ 1 "g" [] okProjectUpstream ∧
      update_content_block_tool ⟨some 0⟩ 1 "g" [] okProjectUpstream
        = ([], Except.error noProjectMsg)) ∧
    (get_document_properties_tool ⟨some 0⟩ okProjectUpstream
        = get_document_properties_tool ⟨none⟩ okProjectUpstream ∧
      get_document_properties_tool ⟨some 0⟩ okProjectUpstream
        = ([], Except.error noProjectMsg)) ∧
    (upsert_document_property_tool ⟨some 0⟩ "a" "b" okProjectUpstream
        = upsert_document_property_tool ⟨none⟩ "a" "b" okProjectUpstream ∧
      upsert_document_property_tool ⟨some 0⟩ "a" "b" okProjectUpstream
        = ([], Except.error noProjectMsg)) :=
  zero_project_id_treated_as_unset okProjectUpstream ⟨none⟩ () rfl [] none 1 1 "g" [] "a" "b"

/-- Claim C9: the content-block update applies every entry of the update map,
blank strings included, over the fetched fields before re-encoding, and the
PUT body carries the encoding of that merged mapping — so a blank update value
reaches the wire as an empty field. -/
theorem content_block_update_applies_blank_values (s : ServerState) (pid bid : Int)
    (bg : String) (fields content : List (String × String)) (up : Upstream)
    (hs : s.project_id = some pid) (hpid : pid ≠ 0)
    (hb : up.getBlock pid bid = Except.ok fields)
    (hnd : (content.map Prod.fst).Nodup) :
    (∀ k v, (k, v) ∈ content →
        dictGet? (update_content_block_fields fields content) k = some v) ∧
    (∀ k, k ∉ content.map Prod.fst →
        dictGet? (update_content_block_fields fields content) k = dictGet? fields k) ∧
    update_content_block_tool s bid bg content up =
      ([⟨"GET", "/pro/api/content_blocks/" ++ toString bid, some pid, none⟩,
        ⟨"PUT", "/pro/api/content_blocks/" ++ toString bid, some pid,
          some (JVal.jObj [("content_block", JVal.jObj
            [("block_group", JVal.jStr bg),
             ("content", JVal.jStr (construct_dradis_response
               (toPyFields (update_content_block_fields fields content))))])])⟩],
       up.writeResp ⟨"PUT", "/pro/api/content_blocks/" ++ toString bid, some pid,
          some (JVal.jObj [("content_block", JVal.jObj
            [("block_group", JVal.jStr bg),
             ("content", JVal.jStr (construct_dradis_response
               (toPyFields (update_content_block_fields fields content))))])])⟩) := by
  refine ⟨?_, ?_, ?_⟩
  · intro k v hm
    rw [dictGet?_update_content_block_fields fields content k hnd,
      dictGet?_eq_some_of_mem content k v hnd hm]
  · intro k hk
    rw [dictGet?_update_content_block_fields fields content k hnd,
      dictGet?_eq_none_of_not_mem content k hk]
  · simp [update_content_block_tool, require_project, hs, hpid, hb]

/-- Witness for C9: a blank update value overwrites the fetched field and the
re-encoded block carries the empty field. -/
theorem content_block_update_applies_blank_values_witness :
    dictGet? (update_content_block_fields [("Description", "old text")]
        [("Description", "")]) "Description" = some "" ∧
    construct_dradis_response (toPyFields (update_content_block_fields
        [("Description", "old text")] [("Description", "")]))
      = "#[Description]#\r\n\r\n\r\n" := by
  have h := content_block_update_applies_blank_values ⟨some 1⟩ 1 2 "intro"
    [("Description", "old text")] [("Description", "")] blockUpstream rfl
    (by decide) rfl (by decide)
  exact ⟨h.1 "Description" "" (by simp), by decide⟩

/-- Claim C10, counterexample to the "subsequent operation addresses the new
project" clause as stated: when the upstream reports the created project's id
as 0, `create_project` succeeds and commits `some 0`, yet a subsequent
`get_project_details` fails with the precondition error (the falsy guard
treats id 0 as unset), so it does not address the new project. -/
theorem create_project_zero_id_counterexample :
    (create_project_tool ⟨none, none, none⟩ zeroCreateUpstream ⟨some 5⟩
        "p" (some 3) none none none).1 = (⟨some 0⟩ : ServerState) ∧
    (create_project_tool ⟨none, none, none⟩ zeroCreateUpstream ⟨some 5⟩
        "p" (some 3) none none none).2.2 = Except.ok () ∧
    get_project_details_tool ⟨some 0⟩ zeroCreateUpstream
      = ([], Except.error noProjectMsg) := by
  refine ⟨rfl, rfl, ?_⟩
  simp [get_project_details_tool, require_project]

/-- Claim C10 (amended): a successful `create_project` commits the returned
project id as the session's active project (overwriting any previous id) and
issues exactly the one POST — no separate verifying read; a subsequent
project-scoped operation then addresses the new project, provided the
returned id is nonzero (a zero id trips the falsy unset guard). -/
theorem create_project_commits_id (cfg : DradisConfig) (up : Upstream)
    (s : ServerState) (name : String) (tid rtpi : Option Int)
    (aids : Option (List Int)) (tmpl : Option String)
    (proj : CreateProject) (n : Int)
    (hres : resolve_create_project cfg name tid rtpi aids tmpl = some proj)
    (hok : up.createProject proj = Except.ok n) :
    create_project_tool cfg up s name tid rtpi aids tmpl =
      (⟨some n⟩, [⟨"POST", "/pro/api/projects", none, some (createProjectBody proj)⟩],
        Except.ok ()) ∧
    (n ≠ 0 → get_project_details_tool ⟨some n⟩ up =
      ([⟨"GET", "/pro/api/projects/" ++ toString n, none, none⟩], up.getProject n)) := by
  constructor
  · simp [create_project_tool, hres, hok]
  · intro hn
    simp [get_project_details_tool, require_project, hn]

/-- Witness for C10's amended theorem at a concrete upstream returning id 9. -/
theorem create_project_commits_id_witness :
    create_project_tool ⟨none, none, none⟩ nineCreateUpstream ⟨some 5⟩
        "p" (some 3) none none none =
      (⟨some 9⟩, [⟨"POST", "/pro/api/projects", none,
        some (createProjectBody ⟨"p", 3, none, none, none⟩)⟩], Except.ok ()) ∧
    get_project_details_tool ⟨some 9⟩ nineCreateUpstream =
      ([⟨"GET", "/pro/api/projects/" ++ toString (9 : Int), none, none⟩],
        nineCreateUpstream.getProject 9) := by
  have h := create_project_commits_id ⟨none, none, none⟩ nineCreateUpstream ⟨some 5⟩
    "p" (some 3) none none none ⟨"p", 3, none, none, none⟩ 9 rfl rfl
  exact ⟨h.1, h.2 (by decide)⟩

end DradisMCP
